import Mathlib

/-!
Verification of the glassflow clickhouse-etl demo scripts.

This file gives a shallow embedding of the demo orchestration code
(src/demos/demo_deduplication.py, src/demos/demo_join.py, src/demos/utils.py,
src/demos/getting-started/demo_deduplication.py and
src/demos/getting-started/providers/altinity/demo.py) and proves properties
of that embedding.

Modelling conventions:
* Calls to external services (the pipeline SDK, the Kafka admin client, the
  ClickHouse client, the glassgen generator) are modelled as observable trace
  steps; the values those services return are supplied by an environment
  record, so a theorem quantified over environments covers every service
  behaviour.
* Python exceptions and process exits are modelled as explicit result values
  (Except, or the RunRes type below).
* Machine integers are modelled as Nat or Int (the Python ints involved are
  unbounded, so no wrap-around is modelled); Python float values that are only
  carried around or compared for equality are modelled as Rat.
-/

/-! ## Trace model of demo_deduplication.py

One observable step of a demo script run.  Each constructor corresponds to one
call into an external system made by the Python code:
* `loadConfig` - `utils.load_conf` reading the JSON config file;
* `pipelineCheck` - `Pipeline().get_running_pipeline()`;
* `pipelineDelete` - `pipeline.delete()`;
* `pipelineCreate` - `pipeline.create()`;
* `dbCommand` - a ClickHouse DDL command (EXISTS TABLE / CREATE TABLE /
  TRUNCATE TABLE);
* `dbReadCount` - `utils.read_clickhouse_table_size` (SELECT count());
* `dbReadRow` - `utils.get_clickhouse_table_row` (SELECT * ... LIMIT 1);
* `brokerCreateTopic` - `admin_client.create_topics` for one topic;
* `generatorRun` - the `glassgen.generate` call publishing events;
* `sleep` - `time.sleep` with the given number of seconds;
* `print` - a console print (rich table, log line or prompt);
* `verdict` - the final `utils.log` call reporting success (`true`) or
  failure (`false`) of the record-count check.
-/
inductive Step where
  | loadConfig : Step
  | pipelineCheck : Step
  | pipelineDelete : Step
  | pipelineCreate : Step
  | dbCommand : Step
  | dbReadCount : Step
  | dbReadRow : Step
  | brokerCreateTopic : Step
  | generatorRun : Step
  | sleep : Nat → Step
  | print : Step
  | verdict : Bool → Step
deriving DecidableEq, Repr

/-- Behaviour of `Pipeline().get_running_pipeline()` as seen by the script:
a pipeline with some id is running, no pipeline is found
(`errors.PipelineNotFoundError`), the service is unreachable
(`errors.ConnectionError`), or some other exception is raised. -/
inductive PipelineStatus where
  | running : String → PipelineStatus
  | notFound : PipelineStatus
  | connError : PipelineStatus
  | otherError : String → PipelineStatus
deriving DecidableEq, Repr

/-- Result of `utils.check_if_pipeline_exists`: a normal return carrying the
`(bool, pipeline_id)` tuple, a process exit with the given code, or a
re-raised exception with the given message. -/
inductive CheckRes where
  | ret : Bool → Option String → CheckRes
  | exited : Nat → CheckRes
  | raised : String → CheckRes
deriving DecidableEq, Repr

/-- Result of running a script fragment: normal completion, `exit(code)`, or
an uncaught exception with the given message. -/
inductive RunRes where
  | normal : RunRes
  | exited : Nat → RunRes
  | raised : String → RunRes
deriving DecidableEq, Repr

/-- Outcome of the `pipeline.create()` call inside
`utils.create_pipeline_if_not_exists`: success, a caught
`PipelineAlreadyExistsError`, or some other exception (which the Python code
logs and re-raises). -/
inductive CreateOutcome where
  | ok : CreateOutcome
  | alreadyExists : CreateOutcome
  | err : String → CreateOutcome
deriving DecidableEq, Repr

/-- Environment for one run of `demo_deduplication.main`: everything the
external world (services, config file, CLI flags, user input) feeds into the
script.
* `pipelineStatus` - behaviour of the pipeline-service check;
* `skipConfirmation`, `cleanup` - the `--yes` and `--cleanup` CLI flags;
* `confirmResp` - the answer the user gives to `utils.query_yes_no`;
* `tableExists` - result of the `EXISTS TABLE` ClickHouse command;
* `numTopics` - number of topics in `config.source.topics`;
* `createOutcome` - behaviour of `pipeline.create()`;
* `nBefore`, `nAfter` - the two `SELECT count()` results;
* `totalGenerated` - `gen_stats` entry `total_generated` returned by glassgen;
* `rowPresent` - whether `SELECT * ... LIMIT 1` returns a row;
* `maxDelayTime` - the `config.sink.max_delay_time` string;
* `pipelineId` - `config.pipeline_id`. -/
structure DedupEnv where
  pipelineStatus : PipelineStatus
  skipConfirmation : Bool
  confirmResp : Bool
  cleanup : Bool
  tableExists : Bool
  numTopics : Nat
  createOutcome : CreateOutcome
  nBefore : Int
  nAfter : Int
  totalGenerated : Int
  rowPresent : Bool
  maxDelayTime : String
  pipelineId : String
deriving Repr

/-- Embedding of `utils.check_if_pipeline_exists` (src/demos/utils.py lines
143-176).  It calls `get_running_pipeline` and
* returns `(pipeline_id == config.pipeline_id, pipeline_id)` when a pipeline
  is running;
* on `errors.ConnectionError` logs a failure table, prints a hint and calls
  `exit(1)`;
* on `errors.PipelineNotFoundError` returns `(False, None)`;
* on any other exception logs a failure table and re-raises. -/
def check_if_pipeline_exists : PipelineStatus → String → List Step × CheckRes
  | PipelineStatus.running pid, cfgId =>
      ([Step.pipelineCheck], CheckRes.ret (pid == cfgId) (some pid))
  | PipelineStatus.notFound, _ => ([Step.pipelineCheck], CheckRes.ret false none)
  | PipelineStatus.connError, _ =>
      ([Step.pipelineCheck, Step.print, Step.print], CheckRes.exited 1)
  | PipelineStatus.otherError m, _ =>
      ([Step.pipelineCheck, Step.print], CheckRes.raised m)

/-- Python truthiness of the `pipeline_id` value (`if pipeline_id:`): a string
is truthy iff it is nonempty, `None` is falsy. -/
def pidTruthy : Option String → Bool
  | some p => p != ""
  | none => false

/-- Embedding of the delete-confirmation stage of
`utils.create_pipeline_if_not_exists` (the `if pipeline_id:` block, lines
215-243): when a different pipeline is running the script optionally prompts
(`utils.query_yes_no` prints the question), then either deletes the running
pipeline and logs, or logs and exits with code 0.  Returns the trace and
`some code` when the script exits. -/
def deletionStage (pt skipConf confirmResp : Bool) : List Step × Option Nat :=
  if pt then
    if skipConf then ([Step.pipelineDelete, Step.print], none)
    else if confirmResp then ([Step.print, Step.pipelineDelete, Step.print], none)
    else ([Step.print, Step.print], some 0)
  else ([], none)

/-- Embedding of `utils.create_table_if_not_exists` (lines 38-64): an
`EXISTS TABLE` command, then either a log (table already there) or a
`CREATE TABLE` command followed by a log. -/
def create_table_trace (tableExists : Bool) : List Step :=
  if tableExists then [Step.dbCommand, Step.print]
  else [Step.dbCommand, Step.dbCommand, Step.print]

/-- Embedding of the per-topic loop of `utils.create_topics_if_not_exists`
(lines 112-139): for each topic one `create_topics` admin call followed by one
log line (Created / Already exists / error - all three log). -/
def topics_trace : Nat → List Step
  | 0 => []
  | n + 1 => Step.brokerCreateTopic :: Step.print :: topics_trace n

/-- Embedding of the `pipeline.create()` try block (lines 248-275): on
success the script sleeps 10 seconds inside a status spinner and logs; on
`PipelineAlreadyExistsError` it logs; on any other exception it logs and
re-raises. -/
def createCallTrace : CreateOutcome → List Step × RunRes
  | CreateOutcome.ok =>
      ([Step.pipelineCreate, Step.sleep 10, Step.print], RunRes.normal)
  | CreateOutcome.alreadyExists =>
      ([Step.pipelineCreate, Step.print], RunRes.normal)
  | CreateOutcome.err m =>
      ([Step.pipelineCreate, Step.print], RunRes.raised m)

/-- Trace of the `exists` branch of `utils.create_pipeline_if_not_exists`
(lines 199-213): log that the pipeline already exists, and with `--cleanup`
truncate the sink table and log. -/
def existsBranchTrace (cleanup : Bool) : List Step :=
  Step.print :: (if cleanup then [Step.dbCommand, Step.print] else [])

/-- Embedding of `utils.create_pipeline_if_not_exists` (src/demos/utils.py
lines 178-277). -/
def create_pipeline_if_not_exists (env : DedupEnv) : List Step × RunRes :=
  match check_if_pipeline_exists env.pipelineStatus env.pipelineId with
  | (t, CheckRes.exited n) => (t, RunRes.exited n)
  | (t, CheckRes.raised m) => (t, RunRes.raised m)
  | (t, CheckRes.ret b pid) =>
    if b then
      (t ++ existsBranchTrace env.cleanup, RunRes.normal)
    else
      match deletionStage (pidTruthy pid) env.skipConfirmation env.confirmResp with
      | (dt, some code) => (t ++ dt, RunRes.exited code)
      | (dt, none) =>
          (t ++ dt ++ create_table_trace env.tableExists
             ++ topics_trace env.numTopics ++ (createCallTrace env.createOutcome).1,
           (createCallTrace env.createOutcome).2)

/-! ## Embedding of utils.time_window_to_seconds -/

/-- Start code points of the 10-character 0-9 blocks of the Unicode
general category Nd (decimal digits), as tabulated by the Unicode character
database that ships with CPython (the table every Nd character belongs to,
each block running from digit value 0 at the start to 9).  Python `\d` in a
str pattern matches exactly these characters, and Python `int` maps each to
its digit value. -/
def ndBlockStarts : List Nat :=
  [0x0030, 0x0660, 0x06F0, 0x07C0, 0x0966, 0x09E6,
   0x0A66, 0x0AE6, 0x0B66, 0x0BE6, 0x0C66, 0x0CE6,
   0x0D66, 0x0DE6, 0x0E50, 0x0ED0, 0x0F20, 0x1040,
   0x1090, 0x17E0, 0x1810, 0x1946, 0x19D0, 0x1A80,
   0x1A90, 0x1B50, 0x1BB0, 0x1C40, 0x1C50, 0xA620,
   0xA8D0, 0xA900, 0xA9D0, 0xA9F0, 0xAA50, 0xABF0,
   0xFF10, 0x104A0, 0x10D30, 0x11066, 0x110F0, 0x11136,
   0x111D0, 0x112F0, 0x11450, 0x114D0, 0x11650, 0x116C0,
   0x11730, 0x118E0, 0x11950, 0x11C50, 0x11D50, 0x11DA0,
   0x16A60, 0x16AC0, 0x16B50, 0x1D7CE, 0x1D7D8, 0x1D7E2,
   0x1D7EC, 0x1D7F6, 0x1E140, 0x1E2F0, 0x1E950, 0x1FBF0]

/-- Model of Python `\d` on str patterns: true exactly on Unicode decimal
digits (general category Nd). -/
def isPyDigit (c : Char) : Bool :=
  ndBlockStarts.any (fun b => b ≤ c.toNat && c.toNat < b + 10)

/-- Digit value of a Unicode decimal digit (0 for non-digits), as computed
by Python `int` on a single character: offset from the start of its
0-9 block. -/
def pyDigitVal (c : Char) : Nat :=
  match ndBlockStarts.find? (fun b => b ≤ c.toNat && c.toNat < b + 10) with
  | some b => c.toNat - b
  | none => 0

/-- Value of a nonempty digit string as read by Python `int` (decimal,
leading zeros allowed, Unicode decimal digits accepted). -/
def digitsToNat (ds : List Char) : Nat :=
  ds.foldl (fun n c => n * 10 + pyDigitVal c) 0

/-- Seconds per unit character as used by `time_window_to_seconds`:
1 for s, 60 for m, 3600 for h, 86400 for d. -/
def unitSeconds : Char → Nat
  | 'm' => 60
  | 'h' => 3600
  | 'd' => 86400
  | _ => 1

/-- Semantics of the `$` anchor of the Python regex
`^(\d+)([smhd])$` used by `time_window_to_seconds`: in Python, `$` matches at
the end of the string or just before a single newline at the end of the
string, so a match against the whole input is a match of `(\d+)([smhd])`
against the input with one trailing newline removed. -/
def stripDollarNewline (cs : List Char) : List Char :=
  if cs.getLast? = some '\n' then cs.dropLast else cs

/-- Embedding of `utils.time_window_to_seconds` (src/demos/utils.py lines
280-313).  Falsy (empty) input returns 0; otherwise the input must match the
regex `^(\d+)([smhd])$` (`\d` modelled as the Unicode decimal digits via
`isPyDigit`), and the parsed value is multiplied by the seconds of the unit;
a failed match raises `ValueError`, modelled as `Except.error`. -/
def time_window_to_seconds (time_window : String) : Except String Nat :=
  if time_window = "" then Except.ok 0
  else
    let core := stripDollarNewline time_window.data
    match core.getLast? with
    | none => Except.error "Invalid time window format"
    | some u =>
      let ds := core.dropLast
      if ds = [] then Except.error "Invalid time window format"
      else if ds.all isPyDigit then
        if u = 's' then Except.ok (digitsToNat ds)
        else if u = 'm' then Except.ok (digitsToNat ds * 60)
        else if u = 'h' then Except.ok (digitsToNat ds * 3600)
        else if u = 'd' then Except.ok (digitsToNat ds * 86400)
        else Except.error "Invalid time window format"
      else Except.error "Invalid time window format"

/-- Decidable form of the pattern named by the claim about
`time_window_to_seconds`: one or more decimal digits (Unicode category Nd,
as matched by Python `\d`) followed by exactly one of the unit characters
s, m, h, d (nothing else before or after). -/
def patternCore (cs : List Char) : Bool :=
  match cs.getLast? with
  | none => false
  | some u =>
      !cs.dropLast.isEmpty && cs.dropLast.all isPyDigit
        && (u == 's' || u == 'm' || u == 'h' || u == 'd')

/-- Pattern of the claim, applied to the raw input string. -/
def claimPattern (s : String) : Bool := patternCore s.data

/-- Pattern actually accepted by the Python regex, which additionally
tolerates one trailing newline because of the `$` anchor semantics. -/
def claimPatternNL (s : String) : Bool := patternCore (stripDollarNewline s.data)

/-- True exactly on `Except.error`. -/
def isErrE {ε α : Type} : Except ε α → Bool
  | Except.error _ => true
  | Except.ok _ => false

/-! ## Trace of demo_deduplication.main -/

/-- Trace of `demo_deduplication.main` after the `glassgen` call
(src/demos/demo_deduplication.py lines 108-164): log the publish success,
print the generation stats table, sleep `time_window_seconds + 2` inside a
status spinner, read the sink row count, read one row (printing it when
present), log the number of new rows, and log the final verdict: success iff
`n_records_after - n_records_before` equals `gen_stats` entry
`total_generated`. -/
def postGenTrace (env : DedupEnv) (tw : Nat) : List Step :=
  [Step.print, Step.print, Step.sleep (tw + 2), Step.dbReadCount, Step.dbReadRow]
    ++ (if env.rowPresent then [Step.print] else [])
    ++ [Step.print, Step.verdict (env.nAfter - env.nBefore == env.totalGenerated)]

/-- Embedding of `demo_deduplication.main` (src/demos/demo_deduplication.py
lines 76-164): load the config, run `utils.create_pipeline_if_not_exists`,
read the sink row count, generate and publish events with glassgen, then the
post-generation tail (`postGenTrace`).  The `time_window_to_seconds` call can
raise (propagated as `RunRes.raised`); exits and exceptions of the pipeline
stage propagate.  The glassgen call itself is modelled as succeeding and
returning stats whose `total_generated` entry is `env.totalGenerated`. -/
def demo_dedup_main (env : DedupEnv) : List Step × RunRes :=
  match create_pipeline_if_not_exists env with
  | (t, RunRes.exited n) => (Step.loadConfig :: t, RunRes.exited n)
  | (t, RunRes.raised m) => (Step.loadConfig :: t, RunRes.raised m)
  | (t, RunRes.normal) =>
    match time_window_to_seconds env.maxDelayTime with
    | Except.error m =>
        (Step.loadConfig :: t
           ++ [Step.dbReadCount, Step.generatorRun, Step.print, Step.print],
         RunRes.raised m)
    | Except.ok tw =>
        (Step.loadConfig :: t
           ++ [Step.dbReadCount, Step.generatorRun] ++ postGenTrace env tw,
         RunRes.normal)

/-! ## Step predicates and phase ranks -/

/-- True exactly on the row-count read step. -/
def isDbReadCount : Step → Bool
  | Step.dbReadCount => true
  | _ => false

/-- True exactly on the generator step. -/
def isGenerator : Step → Bool
  | Step.generatorRun => true
  | _ => false

/-- True exactly on sleep steps. -/
def isSleep : Step → Bool
  | Step.sleep _ => true
  | _ => false

/-- Steps that can occur inside `create_pipeline_if_not_exists`: everything
except config loading, row-count reads, row reads, the generator call and the
verdict. -/
def preGenStep : Step → Bool
  | Step.loadConfig => false
  | Step.dbReadCount => false
  | Step.dbReadRow => false
  | Step.generatorRun => false
  | Step.verdict _ => false
  | _ => true

/-- Phase rank of a step under the order claimed by the specification
(read config, then generator SDK, then broker admin SDK, then pipeline SDK,
then poll database row count, then print tables).  Steps outside those six
categories are unranked. -/
def claimRank : Step → Option Nat
  | Step.loadConfig => some 0
  | Step.generatorRun => some 1
  | Step.brokerCreateTopic => some 2
  | Step.pipelineCheck => some 3
  | Step.pipelineDelete => some 3
  | Step.pipelineCreate => some 3
  | Step.dbReadCount => some 4
  | Step.print => some 5
  | Step.verdict _ => some 5
  | _ => none

/-- Phase rank of a step under the order the code actually follows:
config load, pipeline check, pipeline delete, database DDL, broker admin,
pipeline create, generator, final verdict.  Prints, sleeps and the row-count
and row reads are interleaved and therefore unranked. -/
def actualRank : Step → Option Nat
  | Step.loadConfig => some 0
  | Step.pipelineCheck => some 1
  | Step.pipelineDelete => some 2
  | Step.dbCommand => some 3
  | Step.brokerCreateTopic => some 4
  | Step.pipelineCreate => some 5
  | Step.generatorRun => some 6
  | Step.verdict _ => some 7
  | _ => none

/-- Concrete happy-path environment: no pipeline running, table and topic
absent, creation succeeds, five events generated and five rows added. -/
def env0 : DedupEnv where
  pipelineStatus := PipelineStatus.notFound
  skipConfirmation := true
  confirmResp := true
  cleanup := false
  tableExists := false
  numTopics := 1
  createOutcome := CreateOutcome.ok
  nBefore := 0
  nAfter := 5
  totalGenerated := 5
  rowPresent := true
  maxDelayTime := "1s"
  pipelineId := "p1"

/-! ## Embedding of utils.log -/

/-- Outcome of a `utils.log` call: the status table was printed and the
function returned normally, a `ValueError` was raised with the given message,
or the `table.add_row` line raised `UnboundLocalError` because `component_str`
was never assigned (the component if-chain has no else branch). -/
inductive LogOutcome where
  | printed : LogOutcome
  | valueError : String → LogOutcome
  | unboundLocalError : LogOutcome
deriving DecidableEq, Repr

/-- Components for which `utils.log` assigns `component_str` (lines 362-367);
any other component leaves `component_str` unassigned. -/
def knownComponent (c : String) : Bool :=
  c == "GlassFlow" || c == "Kafka" || c == "Clickhouse"

/-- Rendering stage of `utils.log` (lines 362-381): build and print the table
for a known component; for any other component the reference to
`component_str` in `table.add_row` raises `UnboundLocalError`. -/
def renderTable (c : String) : LogOutcome :=
  if knownComponent c then LogOutcome.printed else LogOutcome.unboundLocalError

/-- Embedding of `utils.log` (src/demos/utils.py lines 336-381), restricted
to its control flow on the three status flags and the component (the message
and status strings only affect the printed text). -/
def log (is_success is_failure is_warning : Bool) (component : String) : LogOutcome :=
  if is_success && !is_failure && !is_warning then renderTable component
  else if is_failure && !is_success && !is_warning then renderTable component
  else if is_warning && !is_success && !is_failure then renderTable component
  else if !(is_success || is_failure || is_warning) then
    LogOutcome.valueError "At least one of is_success, is_failure, or is_warning must be True"
  else
    LogOutcome.valueError "Only one of is_success, is_failure, or is_warning can be True"

/-- Number of the three status flags that are set. -/
def flagCount (a b c : Bool) : Nat :=
  (if a then 1 else 0) + (if b then 1 else 0) + (if c then 1 else 0)

/-- True exactly on the `valueError` outcome. -/
def isValueError : LogOutcome → Bool
  | LogOutcome.valueError _ => true
  | _ => false

/-! ## Embedding of generate_events_with_duplicates (both demo variants) -/

/-- Deduplication section of a topic config
(`topic.deduplication` in the pipeline JSON). -/
structure DeduplicationConfig where
  enabled : Bool
  id_field : String
  time_window : String
deriving DecidableEq, Repr

/-- One topic of the source config. -/
structure TopicConfig where
  name : String
  deduplication : DeduplicationConfig
deriving DecidableEq, Repr

/-- Kafka connection parameters of the source config. -/
structure KafkaConnectionParams where
  brokers : List String
  protocol : String
  mechanism : String
  username : String
  password : String
deriving DecidableEq, Repr

/-- Source section of the pipeline config. -/
structure SourceConfig where
  topics : List TopicConfig
  connection_params : KafkaConnectionParams
  provider : Option String
deriving DecidableEq, Repr

/-- The `duplication` entry of the glassgen generator `event_options`. -/
structure DuplicationSection where
  enabled : Bool
  ratio : Rat
  key_field : String
  time_window : String
deriving DecidableEq, Repr

/-- The `generator` section of the glassgen config; `duplication = none`
models the Python value `None`. -/
structure GeneratorSection where
  num_records : Nat
  rps : Nat
  duplication : Option DuplicationSection
deriving DecidableEq, Repr

/-- Kafka sink parameters built by the root demo variant
(src/demos/demo_deduplication.py lines 61-71). -/
structure KafkaSinkParams where
  bootstrap_servers : String
  topic : String
  security_protocol : String
  sasl_mechanism : String
  username : String
  password : String
deriving DecidableEq, Repr

/-- Glassgen config built by the root demo variant. -/
structure GlassgenConfig where
  generator : GeneratorSection
  sink_type : String
  sink_params : KafkaSinkParams
deriving DecidableEq, Repr

/-- Duplication section shared by both `generate_events_with_duplicates`
variants (lines 35-45 of each): when `topics[0].deduplication.enabled` the
section carries enabled=True, the duplication rate argument as ratio, and the
id_field and time_window of the topic deduplication config; otherwise the
`duplication` option is `None`. -/
def buildDuplication (t0 : TopicConfig) (duplication_rate : Rat) : Option DuplicationSection :=
  if t0.deduplication.enabled then
    some { enabled := true
           ratio := duplication_rate
           key_field := t0.deduplication.id_field
           time_window := t0.deduplication.time_window }
  else none

/-- Embedding of `generate_events_with_duplicates` in
src/demos/demo_deduplication.py (lines 13-72), up to the `glassgen.generate`
call: the function builds the glassgen config from the source config.
Returns `none` when the Python code would raise `IndexError`
(`topics[0]` or `brokers[0]` on an empty list). -/
def generate_events_with_duplicates (sc : SourceConfig) (duplication_rate : Rat)
    (num_records rps : Nat) : Option GlassgenConfig :=
  match sc.topics with
  | [] => none
  | t0 :: _ =>
    let dup := buildDuplication t0 duplication_rate
    match sc.connection_params.brokers with
    | [] => none
    | b0 :: _ =>
      let brokers := if b0 == "kafka:9094" then ["localhost:9093"]
                     else sc.connection_params.brokers
      let sink_type := match sc.provider with
        | some p => if p != "" then "kafka." ++ p else "kafka.confluent"
        | none => "kafka.confluent"
      some { generator := { num_records := num_records, rps := rps, duplication := dup }
             sink_type := sink_type
             sink_params :=
               { bootstrap_servers := String.intercalate "," brokers
                 topic := t0.name
                 security_protocol := sc.connection_params.protocol
                 sasl_mechanism := sc.connection_params.mechanism
                 username := sc.connection_params.username
                 password := sc.connection_params.password } }

/-- Authentication part of the kafka params built by the getting-started
variant: present iff the mechanism is not NO_AUTH. -/
structure GsKafkaAuth where
  security_protocol : String
  sasl_mechanism : String
  sasl_username : String
  sasl_password : String
deriving DecidableEq, Repr

/-- Kafka sink params built by the getting-started variant
(src/demos/getting-started/demo_deduplication.py lines 51-69). -/
structure GsKafkaParams where
  topic : String
  bootstrap_servers : String
  auth : Option GsKafkaAuth
deriving DecidableEq, Repr

/-- Glassgen config built by the getting-started variant. -/
structure GsGlassgenConfig where
  generator : GeneratorSection
  sink_type : String
  sink_params : GsKafkaParams
deriving DecidableEq, Repr

/-- List-of-chars prefix test (needle, haystack). -/
def startsWithL : List Char → List Char → Bool
  | [], _ => true
  | _ :: _, [] => false
  | a :: as, b :: bs => a == b && startsWithL as bs

/-- List-of-chars substring test, modelling the Python `in` operator on
strings. -/
def containsSubL (needle : List Char) : List Char → Bool
  | [] => needle.isEmpty
  | c :: rest => startsWithL needle (c :: rest) || containsSubL needle rest

/-- Embedding of `generate_events_with_duplicates` in
src/demos/getting-started/demo_deduplication.py (lines 13-70), up to the
`glassgen.generate` call.  The duplication section is built exactly as in the
root variant; the sink differs: type `kafka`, bootstrap servers rewritten for
the Kubernetes service name, and SASL auth fields only when the mechanism is
not NO_AUTH.  Returns `none` on the `IndexError` cases. -/
def gs_generate_events_with_duplicates (sc : SourceConfig) (duplication_rate : Rat)
    (num_records rps : Nat) : Option GsGlassgenConfig :=
  match sc.topics with
  | [] => none
  | t0 :: _ =>
    let dup := buildDuplication t0 duplication_rate
    match sc.connection_params.brokers with
    | [] => none
    | b0 :: _ =>
      let bootstrap :=
        if containsSubL "kafka.glassflow.svc.cluster.local".data b0.data then
          "localhost:39092"
        else String.intercalate "," sc.connection_params.brokers
      let auth := if sc.connection_params.mechanism == "NO_AUTH" then none
        else some { security_protocol := sc.connection_params.protocol
                    sasl_mechanism := sc.connection_params.mechanism
                    sasl_username := sc.connection_params.username
                    sasl_password := sc.connection_params.password : GsKafkaAuth }
      some { generator := { num_records := num_records, rps := rps, duplication := dup }
             sink_type := "kafka"
             sink_params := { topic := t0.name, bootstrap_servers := bootstrap, auth := auth } }

/-! ## Embedding of insert_events_to_clickhouse (altinity demo) -/

/-- A value stored in a row sent to ClickHouse: either the raw event value or
the result of `datetime.strptime` on it (the `created_at` column). -/
inductive RVal where
  | raw : String → RVal
  | parsedDate : String → RVal
deriving DecidableEq, Repr

/-- Fixed column order used by `insert_events_to_clickhouse`
(src/demos/getting-started/providers/altinity/demo.py lines 109-116). -/
def columns : List String :=
  ["order_id", "user_id", "product_id", "quantity", "price", "created_at"]

/-- Projection of one generated event (a mapping from field name to value)
onto the fixed column order, with `created_at` replaced by its parsed
datetime (lines 121-123). -/
def eventToRow (event : String → String) : List RVal :=
  columns.map (fun c => if c = "created_at" then RVal.parsedDate (event c) else RVal.raw (event c))

/-- Batch size used by `insert_events_to_clickhouse` (line 117). -/
def batchSize : Nat := 10000

/-- Embedding of the loop of `insert_events_to_clickhouse` (lines 120-139):
events are appended to the current batch; whenever the batch length reaches
`batch_size` an insert is issued and the batch reset; after the loop a final
insert flushes a nonempty remainder.  Returns the list of issued insert
batches. -/
def insertLoop : List (String → String) → List (List RVal) → List (List (List RVal))
  | [], batch => if batch.isEmpty then [] else [batch]
  | e :: rest, batch =>
    let batch' := batch ++ [eventToRow e]
    if batchSize ≤ batch'.length then batch' :: insertLoop rest []
    else insertLoop rest batch'

/-- Embedding of `insert_events_to_clickhouse` (lines 107-139): the loop
starting from an empty batch. -/
def insert_events_to_clickhouse (events : List (String → String)) : List (List (List RVal)) :=
  insertLoop events []

/-! ## Embedding of JoinEventSchema -/

/-- Value produced by `next` on `itertools.cycle(keys)` after k previous
calls: element k mod n of the list (the cycle repeats the list forever). -/
def cycleNth (keys : List String) (k : Nat) (h : keys ≠ []) : String :=
  keys.get ⟨k % keys.length, Nat.mod_lt k (List.length_pos.mpr h)⟩

/-- Embedding of `JoinEventSchema._generate_record`
(src/demos/demo_join.py lines 32-36 and the identical class in
src/demos/getting-started/providers/altinity/demo.py lines 169-173): the k-th
generated record is the k-th record of the base schema with the join-key
field overwritten by the k-th value of the key cycle.  `base k f` is the
value the base `ConfigSchema` generates for field `f` of the k-th record. -/
def joinRecordGen (base : Nat → String → String) (jk : String) (keys : List String)
    (h : keys ≠ []) (k : Nat) : String → String :=
  fun field => if field = jk then cycleNth keys k h else base k field

/-- Join-key values of the window of `keys.length` consecutive generated
records starting at record index `start`. -/
def windowJoinKeys (base : Nat → String → String) (jk : String) (keys : List String)
    (h : keys ≠ []) (start : Nat) : List String :=
  (List.range keys.length).map (fun i => joinRecordGen base jk keys h (start + i) jk)

/-! ## Embedding of check_duplicates (altinity demo) -/

/-- Embedding of `check_duplicates`
(src/demos/getting-started/providers/altinity/demo.py lines 142-149): with
`total` and `unique` the two count queries, the printed duplicate percentage
is `100 * (total - unique) / total`; Python raises `ZeroDivisionError` when
`total` is 0 (there is no guard).  Python float division is modelled as exact
division on `Rat`. -/
def check_duplicates (total unique : Nat) : Except String Rat :=
  if total = 0 then Except.error "ZeroDivisionError"
  else Except.ok (100 * ((total : Rat) - (unique : Rat)) / (total : Rat))

/-- Concrete source config used to witness the C4 theorem: one topic with
deduplication enabled. -/
def scW : SourceConfig where
  topics := [{ name := "t1"
               deduplication :=
                 { enabled := true, id_field := "event_id", time_window := "1h" } }]
  connection_params :=
    { brokers := ["kafka:9094"]
      protocol := "SASL_PLAINTEXT"
      mechanism := "PLAIN"
      username := "u"
      password := "p" }
  provider := none

/-- Computable check that a list of ranks is nondecreasing. -/
def nondecreasing : List Nat → Bool
  | a :: b :: rest => decide (a ≤ b) && nondecreasing (b :: rest)
  | _ => true

/-! ## Theorems -/

/-- Claim C6: `check_if_pipeline_exists` returns `(True, pipeline_id)` iff
the running pipeline id equals `config.pipeline_id`; returns
`(False, pipeline_id)` for a different running pipeline; returns
`(False, None)` on `PipelineNotFoundError`; exits the process with code 1 on
`ConnectionError`; and re-raises any other exception. -/
theorem c6_check_pipeline (st : PipelineStatus) (cfgId : String) :
    (∀ pid, st = PipelineStatus.running pid →
        (check_if_pipeline_exists st cfgId).2 = CheckRes.ret (pid == cfgId) (some pid)
        ∧ ((pid == cfgId) = true ↔ pid = cfgId))
    ∧ (st = PipelineStatus.notFound →
        (check_if_pipeline_exists st cfgId).2 = CheckRes.ret false none)
    ∧ (st = PipelineStatus.connError →
        (check_if_pipeline_exists st cfgId).2 = CheckRes.exited 1)
    ∧ (∀ m, st = PipelineStatus.otherError m →
        (check_if_pipeline_exists st cfgId).2 = CheckRes.raised m) := by
  refine ⟨?_, ?_, ?_, ?_⟩
  · intro pid hst
    subst hst
    exact ⟨rfl, beq_iff_eq⟩
  · intro hst
    subst hst
    rfl
  · intro hst
    subst hst
    rfl
  · intro m hst
    subst hst
    rfl

/-- Witness for C6 at a concrete matching pipeline id. -/
theorem c6_witness :
    (check_if_pipeline_exists (PipelineStatus.running "p1") "p1").2
      = CheckRes.ret ("p1" == "p1") (some "p1")
    ∧ (("p1" == "p1") = true ↔ "p1" = "p1") :=
  (c6_check_pipeline (PipelineStatus.running "p1") "p1").1 "p1" rfl

/-- Inner rendering of `utils.log` never raises `ValueError`. -/
theorem renderTable_not_valueError (c : String) : isValueError (renderTable c) = false := by
  unfold renderTable
  split <;> rfl

/-- Counterexample to claim C7 as stated: with exactly one flag set but a
component other than GlassFlow, Kafka or Clickhouse, `utils.log` does not
return normally (the `component_str` reference raises `UnboundLocalError`,
since the component if-chain has no else branch). -/
theorem c7_counterexample :
    flagCount true false false = 1
    ∧ log true false false "Foo" ≠ LogOutcome.printed := by decide

/-- Claim C7, amended: `utils.log` raises `ValueError` iff the number of set
flags among is_success, is_failure, is_warning differs from one; with exactly
one flag set it prints the status table and returns normally when the
component is one of GlassFlow, Kafka, Clickhouse, and raises
`UnboundLocalError` for any other component. -/
theorem c7_amended (a b c : Bool) (comp : String) :
    (isValueError (log a b c comp) = true ↔ flagCount a b c ≠ 1)
    ∧ (flagCount a b c = 1 → knownComponent comp = true →
        log a b c comp = LogOutcome.printed)
    ∧ (flagCount a b c = 1 → knownComponent comp = false →
        log a b c comp = LogOutcome.unboundLocalError) := by
  have hrt := renderTable_not_valueError comp
  refine ⟨?_, ?_, ?_⟩
  · cases a <;> cases b <;> cases c <;> simp_all [log, flagCount] <;> rfl
  · intro h1 h2
    cases a <;> cases b <;> cases c <;>
      simp_all [log, flagCount, renderTable, isValueError]
  · intro h1 h2
    cases a <;> cases b <;> cases c <;>
      simp_all [log, flagCount, renderTable, isValueError]

/-- Witness for C7 (amended) at concrete flags and component. -/
theorem c7_witness : log true false false "Kafka" = LogOutcome.printed :=
  (c7_amended true false false "Kafka").2.1 rfl (by decide)

/-- Claim C10: `check_duplicates` computes the duplicate percentage as
`100 * (total - unique) / total`, raising `ZeroDivisionError` when the table
is empty (total = 0, no guard exists) and returning the exact ratio for every
positive total. -/
theorem c10_check_duplicates (total unique : Nat) :
    (total = 0 → check_duplicates total unique = Except.error "ZeroDivisionError")
    ∧ (0 < total →
        check_duplicates total unique
          = Except.ok (100 * ((total : Rat) - (unique : Rat)) / (total : Rat))) := by
  constructor
  · intro h
    simp [check_duplicates, h]
  · intro h
    simp [check_duplicates, Nat.pos_iff_ne_zero.mp h]

/-- Witness for C10 at an empty and a nonempty table. -/
theorem c10_witness :
    check_duplicates 0 7 = Except.error "ZeroDivisionError"
    ∧ check_duplicates 4 2 = Except.ok (100 * ((4 : Rat) - (2 : Rat)) / (4 : Rat)) :=
  ⟨(c10_check_duplicates 0 7).1 rfl, (c10_check_duplicates 4 2).2 (by decide)⟩

/-- Concatenating the batches issued by the insert loop yields the pending
batch followed by all remaining events projected onto the column order. -/
theorem insertLoop_join (events : List (String → String)) :
    ∀ batch, (insertLoop events batch).flatten = batch ++ events.map eventToRow := by
  induction events with
  | nil =>
    intro batch
    by_cases hb : batch.isEmpty
    · simp [insertLoop, hb, List.isEmpty_iff.mp hb]
    · simp [insertLoop, hb]
  | cons e rest ih =>
    intro batch
    simp only [insertLoop]
    by_cases hfull : batchSize ≤ (batch ++ [eventToRow e]).length
    · rw [if_pos hfull]
      simp [ih []]
    · rw [if_neg hfull]
      simp [ih (batch ++ [eventToRow e])]

/-- Every batch issued by the insert loop, except possibly the last, has
exactly `batchSize` rows, provided the pending batch is not yet full. -/
theorem insertLoop_full (events : List (String → String)) :
    ∀ batch, batch.length < batchSize →
      ((insertLoop events batch).dropLast).all (fun b => b.length == batchSize) = true := by
  induction events with
  | nil =>
    intro batch h
    by_cases hb : batch.isEmpty <;> simp [insertLoop, hb]
  | cons e rest ih =>
    intro batch h
    simp only [insertLoop]
    by_cases hfull : batchSize ≤ (batch ++ [eventToRow e]).length
    · rw [if_pos hfull]
      have hlen : (batch ++ [eventToRow e]).length = batchSize := by
        simp only [List.length_append, List.length_singleton]
        simp only [List.length_append, List.length_singleton] at hfull
        omega
      have hrec := ih [] (by simp [batchSize])
      cases hL : insertLoop rest [] with
      | nil => simp
      | cons x xs =>
        rw [hL] at hrec
        simp [List.dropLast, hlen, hrec]
    · rw [if_neg hfull]
      refine ih _ ?_
      simp only [List.length_append, List.length_singleton] at hfull ⊢
      omega

/-- No batch issued by the insert loop is empty: the final flush only fires
on a nonempty remainder. -/
theorem insertLoop_nonempty (events : List (String → String)) :
    ∀ batch, (insertLoop events batch).all (fun b => !b.isEmpty) = true := by
  induction events with
  | nil =>
    intro batch
    by_cases hb : batch.isEmpty <;> simp [insertLoop, hb]
  | cons e rest ih =>
    intro batch
    simp only [insertLoop]
    by_cases hfull : batchSize ≤ (batch ++ [eventToRow e]).length
    · rw [if_pos hfull]
      simp [ih []]
    · rw [if_neg hfull]
      exact ih _

/-- Claim C8: `insert_events_to_clickhouse` inserts every generated event
exactly once and in generation order - the concatenation of all issued
batches equals the event list projected onto the fixed column order; every
issued batch except possibly the last has exactly 10000 rows; the final
flush only inserts a nonempty remainder. -/
theorem c8_insert_events (events : List (String → String)) :
    (insert_events_to_clickhouse events).flatten = events.map eventToRow
    ∧ ((insert_events_to_clickhouse events).dropLast).all
        (fun b => b.length == batchSize) = true
    ∧ (insert_events_to_clickhouse events).all (fun b => !b.isEmpty) = true
    ∧ batchSize = 10000 := by
  refine ⟨?_, ?_, ?_, rfl⟩
  · simpa using insertLoop_join events []
  · exact insertLoop_full events [] (by simp [batchSize])
  · exact insertLoop_nonempty events []

/-- Helper: the two-element key list used by the C9 counterexample is
nonempty. -/
theorem keysAA_ne : (["a", "a"] : List String) ≠ [] := by decide

/-- Helper: the key list used by the C9 witness is nonempty. -/
theorem keysAB_ne : (["a", "b"] : List String) ≠ [] := by decide

/-- The join-key values of a window of n consecutive records are a rotation
of the key list. -/
theorem window_eq_rotate (base : Nat → String → String) (jk : String)
    (keys : List String) (h : keys ≠ []) (start : Nat) :
    windowJoinKeys base jk keys h start = keys.rotate start := by
  apply List.ext_getElem
  · simp [windowJoinKeys, List.length_rotate]
  · intro i h1 h2
    have hidx : (start + i) % keys.length = (i + start) % keys.length := by
      rw [Nat.add_comm]
    simp only [windowJoinKeys, List.getElem_map, List.getElem_range,
      joinRecordGen, if_pos rfl, cycleNth, List.get_eq_getElem,
      List.getElem_rotate, if_true, hidx]

/-- Counterexample to claim C9 as stated: with the duplicated key list
[a, a], the key a appears twice, not exactly once, in the window of n
consecutive records. -/
theorem c9_counterexample :
    ¬ (∀ key ∈ (["a", "a"] : List String),
        (windowJoinKeys (fun _ _ => "b") "user_id" ["a", "a"] keysAA_ne 0).count key
          = 1) := by decide

/-- Claim C9, amended: the k-th record generated through a `JoinEventSchema`
carries `list_of_keys[k mod n]` in its join-key field (overwriting the base
schema value, which all other fields keep); consequently, in every window of
n consecutive records each key appears exactly as often as it occurs in
`list_of_keys` - in particular exactly once when the keys are pairwise
distinct. -/
theorem c9_amended (base : Nat → String → String) (jk : String)
    (keys : List String) (h : keys ≠ []) (k start : Nat) (key : String) :
    joinRecordGen base jk keys h k jk = cycleNth keys k h
    ∧ (∀ field, field ≠ jk → joinRecordGen base jk keys h k field = base k field)
    ∧ (windowJoinKeys base jk keys h start).count key = keys.count key
    ∧ (keys.Nodup → key ∈ keys →
        (windowJoinKeys base jk keys h start).count key = 1) := by
  refine ⟨by simp [joinRecordGen], fun f hf => by simp [joinRecordGen, hf], ?_, ?_⟩
  · rw [window_eq_rotate]
    exact (List.rotate_perm keys start).count_eq key
  · intro hnd hmem
    rw [window_eq_rotate]
    exact List.count_eq_one_of_mem
      ((List.rotate_perm keys start).nodup_iff.mpr hnd)
      ((List.rotate_perm keys start).mem_iff.mpr hmem)

/-- Witness for C9 (amended) at a concrete schema and key list. -/
theorem c9_witness :
    (windowJoinKeys (fun _ _ => "z") "user_id" ["a", "b"] keysAB_ne 1).count "a"
      = (["a", "b"] : List String).count "a" :=
  (c9_amended (fun _ _ => "z") "user_id" ["a", "b"] keysAB_ne 3 1 "a").2.2.1

/-- A string is empty iff its character list is empty. -/
theorem string_eq_empty_iff (s : String) : s = "" ↔ s.data = [] :=
  ⟨fun h => by rw [h], String.ext⟩

/-- Evaluation of `time_window_to_seconds` once the regex part has matched:
with the anchor-stripped input of the form digits ++ [unit], the result is
the unit dispatch chain. -/
theorem twts_eval (s : String) (ds : List Char) (u : Char) (hne : s ≠ "")
    (hcore : stripDollarNewline s.data = ds ++ [u]) (hds : ds ≠ [])
    (hdig : ds.all isPyDigit = true) :
    time_window_to_seconds s =
      (if u = 's' then Except.ok (digitsToNat ds)
       else if u = 'm' then Except.ok (digitsToNat ds * 60)
       else if u = 'h' then Except.ok (digitsToNat ds * 3600)
       else if u = 'd' then Except.ok (digitsToNat ds * 86400)
       else Except.error "Invalid time window format") := by
  unfold time_window_to_seconds
  rw [if_neg hne, hcore]
  simp [List.getLast?_concat, List.dropLast_concat, hds, hdig]

/-- Counterexample to claim C2 as stated: the input with one trailing newline
does not match the digits-then-unit pattern, yet `time_window_to_seconds`
returns 300 instead of raising ValueError, because the `$` anchor of the
Python regex also matches just before a trailing newline. -/
theorem c2_counterexample :
    claimPattern (String.mk ['5', 'm', '\n']) = false
    ∧ String.mk ['5', 'm', '\n'] ≠ ""
    ∧ time_window_to_seconds (String.mk ['5', 'm', '\n']) = Except.ok 300 := by
  refine ⟨by decide, by decide, ?_⟩
  rfl

/-- Claim C2, amended: for input of one or more decimal digits (Unicode
category Nd, as matched by Python `\d`) followed by one unit among s, m, h,
d - optionally followed by one trailing newline, which the `$` anchor
tolerates - `time_window_to_seconds` returns the parsed number times 1, 60,
3600 or 86400 respectively; the empty string returns 0; every other string
raises ValueError. -/
theorem c2_amended (s : String) :
    (s = "" → time_window_to_seconds s = Except.ok 0)
    ∧ (∀ ds u tail, s.data = ds ++ u :: tail → ds ≠ [] →
        ds.all isPyDigit = true →
        (u == 's' || u == 'm' || u == 'h' || u == 'd') = true →
        (tail = [] ∨ tail = ['\n']) →
        time_window_to_seconds s = Except.ok (digitsToNat ds * unitSeconds u))
    ∧ (s ≠ "" → claimPatternNL s = false →
        isErrE (time_window_to_seconds s) = true) := by
  refine ⟨?_, ?_, ?_⟩
  · intro h
    simp [time_window_to_seconds, h]
  · intro ds u tail hdata hds hdig hu htail
    have hucases : ((u = 's' ∨ u = 'm') ∨ u = 'h') ∨ u = 'd' := by
      simpa using hu
    have hne : s ≠ "" := by
      intro hcon
      rw [hcon] at hdata
      have h0 : ([] : List Char) = ds ++ u :: tail := hdata
      simp at h0
    have hcore : stripDollarNewline s.data = ds ++ [u] := by
      rcases htail with ht | ht
      · subst ht
        have hu_ne : u ≠ '\n' := by
          rcases hucases with ((h | h) | h) | h <;> subst h <;> decide
        unfold stripDollarNewline
        rw [hdata]
        rw [if_neg]
        simp [List.getLast?_concat, hu_ne]
      · subst ht
        have hdata2 : s.data = (ds ++ [u]) ++ ['\n'] := by
          rw [hdata]; simp
        unfold stripDollarNewline
        rw [hdata2, List.getLast?_concat, if_pos rfl, List.dropLast_concat]
    rw [twts_eval s ds u hne hcore hds hdig]
    rcases hucases with ((h | h) | h) | h <;> subst h <;> simp [unitSeconds]
  · intro hne hpat
    unfold claimPatternNL at hpat
    cases hg : (stripDollarNewline s.data).getLast? with
    | none =>
      simp [time_window_to_seconds, hne, hg, isErrE]
    | some u =>
      unfold patternCore at hpat
      rw [hg] at hpat
      by_cases h1 : (stripDollarNewline s.data).dropLast = []
      · simp [time_window_to_seconds, hne, hg, h1, isErrE]
      · by_cases h2 : (stripDollarNewline s.data).dropLast.all isPyDigit = true
        · have h1' : (stripDollarNewline s.data).dropLast.isEmpty = false := by
            simpa [List.isEmpty_iff] using h1
          have hu : (u == 's' || u == 'm' || u == 'h' || u == 'd') = false := by
            simpa [h1', h2] using hpat
          have hus : ((¬u = 's' ∧ ¬u = 'm') ∧ ¬u = 'h') ∧ ¬u = 'd' := by
            simpa using hu
          simp [time_window_to_seconds, hne, hg, h1, h2, hus.1.1.1, hus.1.1.2,
            hus.1.2, hus.2, isErrE]
        · simp [time_window_to_seconds, hne, hg, h1, h2, isErrE]

/-- The embedding agrees with Python on Unicode decimal digits: the
Arabic-Indic five followed by m parses to 300 seconds, exactly as the Python
regex `\d` and `int` accept it. -/
theorem twts_unicode_digit :
    time_window_to_seconds (String.mk ['٥', 'm']) = Except.ok 300 := by
  rfl

/-- Witness for C2 (amended) at the concrete input formed by the
Arabic-Indic digit five and the unit m (a Unicode decimal digit accepted by
Python). -/
theorem c2_witness :
    time_window_to_seconds (String.mk (['٥'] ++ 'm' :: []))
      = Except.ok (digitsToNat ['٥'] * unitSeconds 'm') :=
  (c2_amended (String.mk (['٥'] ++ 'm' :: []))).2.1 ['٥'] 'm' []
    rfl (by decide) (by decide) (by decide) (Or.inl rfl)

/-- The duplication section of the glassgen config is the enabled section
with the topic deduplication fields iff deduplication is enabled, and `None`
iff it is disabled. -/
theorem buildDuplication_spec (t0 : TopicConfig) (rate : Rat) :
    (buildDuplication t0 rate
        = some { enabled := true, ratio := rate,
                 key_field := t0.deduplication.id_field,
                 time_window := t0.deduplication.time_window }
      ↔ t0.deduplication.enabled = true)
    ∧ (buildDuplication t0 rate = none ↔ t0.deduplication.enabled = false) := by
  cases hen : t0.deduplication.enabled <;> simp [buildDuplication, hen]

/-- Claim C4: both `generate_events_with_duplicates` variants build a
generator config whose duplication section is present - with enabled=True,
ratio equal to the duplication-rate argument, and the key_field and
time_window of the topic deduplication config - if and only if
`source_config.topics[0].deduplication.enabled` holds, and is `None`
otherwise. -/
theorem c4_duplication (sc : SourceConfig) (rate : Rat) (nr rps : Nat)
    (t0 : TopicConfig) (rest : List TopicConfig) (b0 : String) (brest : List String)
    (htop : sc.topics = t0 :: rest)
    (hbrk : sc.connection_params.brokers = b0 :: brest) :
    (∃ cfg, generate_events_with_duplicates sc rate nr rps = some cfg
       ∧ (cfg.generator.duplication
            = some { enabled := true, ratio := rate,
                     key_field := t0.deduplication.id_field,
                     time_window := t0.deduplication.time_window }
          ↔ t0.deduplication.enabled = true)
       ∧ (cfg.generator.duplication = none ↔ t0.deduplication.enabled = false))
    ∧ (∃ gcfg, gs_generate_events_with_duplicates sc rate nr rps = some gcfg
       ∧ (gcfg.generator.duplication
            = some { enabled := true, ratio := rate,
                     key_field := t0.deduplication.id_field,
                     time_window := t0.deduplication.time_window }
          ↔ t0.deduplication.enabled = true)
       ∧ (gcfg.generator.duplication = none ↔ t0.deduplication.enabled = false)) := by
  have h1 : ∃ cfg, generate_events_with_duplicates sc rate nr rps = some cfg
      ∧ cfg.generator.duplication = buildDuplication t0 rate := by
    simp only [generate_events_with_duplicates, htop, hbrk]
    exact ⟨_, rfl, rfl⟩
  have h2 : ∃ gcfg, gs_generate_events_with_duplicates sc rate nr rps = some gcfg
      ∧ gcfg.generator.duplication = buildDuplication t0 rate := by
    simp only [gs_generate_events_with_duplicates, htop, hbrk]
    exact ⟨_, rfl, rfl⟩
  obtain ⟨cfg, hc1, hc2⟩ := h1
  obtain ⟨gcfg, hg1, hg2⟩ := h2
  constructor
  · refine ⟨cfg, hc1, ?_, ?_⟩ <;> rw [hc2]
    · exact (buildDuplication_spec t0 rate).1
    · exact (buildDuplication_spec t0 rate).2
  · refine ⟨gcfg, hg1, ?_, ?_⟩ <;> rw [hg2]
    · exact (buildDuplication_spec t0 rate).1
    · exact (buildDuplication_spec t0 rate).2

/-- Witness for C4 at the concrete config `scW` (deduplication enabled). -/
theorem c4_witness :
    ∃ cfg, generate_events_with_duplicates scW (1 / 2 : Rat) 100 10 = some cfg
      ∧ (cfg.generator.duplication
           = some { enabled := true, ratio := (1 / 2 : Rat),
                    key_field := "event_id", time_window := "1h" }
         ↔ (true : Bool) = true)
      ∧ (cfg.generator.duplication = none ↔ (true : Bool) = false) :=
  (c4_duplication scW (1 / 2 : Rat) 100 10
      { name := "t1"
        deduplication := { enabled := true, id_field := "event_id", time_window := "1h" } }
      [] "kafka:9094" [] rfl rfl).1

/-- The check stage only produces pre-generation steps. -/
theorem check_trace_all (st : PipelineStatus) (cid : String) :
    ((check_if_pipeline_exists st cid).1).all preGenStep = true := by
  cases st <;> rfl

/-- The deletion stage only produces pre-generation steps. -/
theorem deletion_all (a b c : Bool) :
    ((deletionStage a b c).1).all preGenStep = true := by
  cases a <;> cases b <;> cases c <;> rfl

/-- The table-creation stage only produces pre-generation steps. -/
theorem table_all (te : Bool) : (create_table_trace te).all preGenStep = true := by
  cases te <;> rfl

/-- The topic-creation stage only produces pre-generation steps. -/
theorem topics_all (n : Nat) : (topics_trace n).all preGenStep = true := by
  induction n with
  | zero => rfl
  | succ n ih => simp [topics_trace, ih, preGenStep]

/-- The pipeline-create stage only produces pre-generation steps. -/
theorem createCall_all (co : CreateOutcome) :
    ((createCallTrace co).1).all preGenStep = true := by
  cases co <;> rfl

/-- Every step of `create_pipeline_if_not_exists` is a pre-generation step:
no row-count read, row read, generator run, config load or verdict occurs
inside it. -/
theorem create_all (env : DedupEnv) :
    ((create_pipeline_if_not_exists env).1).all preGenStep = true := by
  unfold create_pipeline_if_not_exists
  rcases hc : check_if_pipeline_exists env.pipelineStatus env.pipelineId with ⟨t, r⟩
  have ht : t.all preGenStep = true := by
    have h0 := check_trace_all env.pipelineStatus env.pipelineId
    rw [hc] at h0
    exact h0
  cases r with
  | exited n => exact ht
  | raised m => exact ht
  | ret b pid =>
    by_cases hb : b = true
    · rw [hb]
      simp only [if_true]
      cases hcl : env.cleanup <;>
        simp [existsBranchTrace, hcl, List.all_append, ht, preGenStep]
    · rw [Bool.not_eq_true] at hb
      rw [hb]
      simp only [Bool.false_eq_true, if_false]
      rcases hd : deletionStage (pidTruthy pid) env.skipConfirmation env.confirmResp
        with ⟨dt, oc⟩
      have hdt : dt.all preGenStep = true := by
        have h0 := deletion_all (pidTruthy pid) env.skipConfirmation env.confirmResp
        rw [hd] at h0
        exact h0
      cases oc with
      | some code => simp [List.all_append, ht, hdt]
      | none =>
        simp [List.all_append, ht, hdt, table_all, topics_all, createCall_all]

/-- A pre-generation step is not a row-count read. -/
theorem pre_not_dbRead {s : Step} (h : preGenStep s = true) :
    isDbReadCount s = false := by
  cases s <;> simp_all [preGenStep, isDbReadCount]

/-- A pre-generation step is not a generator run. -/
theorem pre_not_gen {s : Step} (h : preGenStep s = true) : isGenerator s = false := by
  cases s <;> simp_all [preGenStep, isGenerator]

/-- No row-count read occurs inside `create_pipeline_if_not_exists`. -/
theorem create_countP_dbRead (env : DedupEnv) :
    ((create_pipeline_if_not_exists env).1).countP isDbReadCount = 0 := by
  rw [List.countP_eq_zero]
  intro s hs
  have hall := List.all_eq_true.mp (create_all env) s hs
  simp [pre_not_dbRead hall]

/-- No generator run occurs inside `create_pipeline_if_not_exists`. -/
theorem create_countP_gen (env : DedupEnv) :
    ((create_pipeline_if_not_exists env).1).countP isGenerator = 0 := by
  rw [List.countP_eq_zero]
  intro s hs
  have hall := List.all_eq_true.mp (create_all env) s hs
  simp [pre_not_gen hall]

/-- Decomposition of a normally completing run of the deduplication demo:
the trace is the config load, the pipeline stage, the first row-count read,
the generator run, and the post-generation tail, with the max-delay window
parsed successfully. -/
theorem main_normal_decomp (env : DedupEnv)
    (h : (demo_dedup_main env).2 = RunRes.normal) :
    ∃ tw, time_window_to_seconds env.maxDelayTime = Except.ok tw
      ∧ (demo_dedup_main env).1
          = Step.loadConfig :: (create_pipeline_if_not_exists env).1
              ++ [Step.dbReadCount, Step.generatorRun] ++ postGenTrace env tw := by
  unfold demo_dedup_main at h ⊢
  rcases hc : create_pipeline_if_not_exists env with ⟨t, r⟩
  rw [hc] at h
  cases r with
  | exited n => simp at h
  | raised m => simp at h
  | normal =>
    cases htw : time_window_to_seconds env.maxDelayTime with
    | error m =>
      rw [htw] at h
      simp at h
    | ok tw =>
      exact ⟨tw, rfl, by simp⟩

/-- The post-generation tail reads the row count exactly once. -/
theorem postGen_countP_dbRead (env : DedupEnv) (tw : Nat) :
    (postGenTrace env tw).countP isDbReadCount = 1 := by
  cases hrp : env.rowPresent <;>
    simp [postGenTrace, hrp, isDbReadCount, List.countP_append, List.countP_cons]

/-- The post-generation tail sleeps exactly once. -/
theorem postGen_countP_sleep (env : DedupEnv) (tw : Nat) :
    (postGenTrace env tw).countP isSleep = 1 := by
  cases hrp : env.rowPresent <;>
    simp [postGenTrace, hrp, isSleep, List.countP_append, List.countP_cons]

/-- The post-generation tail contains no generator run. -/
theorem postGen_countP_gen (env : DedupEnv) (tw : Nat) :
    (postGenTrace env tw).countP isGenerator = 0 := by
  cases hrp : env.rowPresent <;>
    simp [postGenTrace, hrp, isGenerator, List.countP_append, List.countP_cons]

/-- The post-generation tail ends with the verdict step. -/
theorem postGen_getLast (env : DedupEnv) (tw : Nat) :
    (postGenTrace env tw).getLast?
      = some (Step.verdict (env.nAfter - env.nBefore == env.totalGenerated)) := by
  cases hrp : env.rowPresent <;>
    simp [postGenTrace, hrp, ← List.append_assoc, List.getLast?_concat]

/-- Claim C1: a normally completing run of the deduplication demo reads the
sink row count exactly twice - once before and once after the generator run -
and its final log reports success if and only if
`n_records_after - n_records_before` equals the `total_generated` entry of
the generator stats. -/
theorem c1_dedup_verification (env : DedupEnv)
    (h : (demo_dedup_main env).2 = RunRes.normal) :
    ((demo_dedup_main env).1).countP isDbReadCount = 2
    ∧ (∃ pre post, (demo_dedup_main env).1
          = pre ++ [Step.dbReadCount, Step.generatorRun] ++ post
        ∧ pre.countP isDbReadCount = 0 ∧ post.countP isDbReadCount = 1)
    ∧ ((demo_dedup_main env).1).getLast?
        = some (Step.verdict (env.nAfter - env.nBefore == env.totalGenerated))
    ∧ ((env.nAfter - env.nBefore == env.totalGenerated) = true
        ↔ env.nAfter - env.nBefore = env.totalGenerated) := by
  obtain ⟨tw, htw, hts⟩ := main_normal_decomp env h
  refine ⟨?_, ?_, ?_, beq_iff_eq⟩
  · rw [hts]
    simp [List.countP_append, List.countP_cons, create_countP_dbRead env,
      postGen_countP_dbRead env tw, isDbReadCount]
  · refine ⟨Step.loadConfig :: (create_pipeline_if_not_exists env).1,
      postGenTrace env tw, ?_, ?_, postGen_countP_dbRead env tw⟩
    · rw [hts]
    · simp [List.countP_cons, create_countP_dbRead env, isDbReadCount]
  · rw [hts]
    have h2 : postGenTrace env tw ≠ [] := by simp [postGenTrace]
    rw [show Step.loadConfig :: (create_pipeline_if_not_exists env).1
          ++ [Step.dbReadCount, Step.generatorRun] ++ postGenTrace env tw
        = (Step.loadConfig :: ((create_pipeline_if_not_exists env).1
          ++ [Step.dbReadCount, Step.generatorRun])) ++ postGenTrace env tw by simp]
    rw [List.getLast?_append_of_ne_nil _ h2]
    exact postGen_getLast env tw

/-- Witness for C1 at the concrete environment `env0`. -/
theorem c1_witness :
    ((demo_dedup_main env0).1).countP isDbReadCount = 2
    ∧ ((demo_dedup_main env0).1).getLast?
        = some (Step.verdict (env0.nAfter - env0.nBefore == env0.totalGenerated)) :=
  ⟨(c1_dedup_verification env0 (by decide)).1,
   (c1_dedup_verification env0 (by decide)).2.2.1⟩

/-- The computable nondecreasing check agrees with `List.Chain'`. -/
theorem nondecreasing_iff (l : List Nat) :
    nondecreasing l = true ↔ List.Chain' (· ≤ ·) l := by
  induction l with
  | nil => simp [nondecreasing]
  | cons a rest ih =>
    cases rest with
    | nil => simp [nondecreasing]
    | cons b rest2 =>
      rw [List.chain'_cons, ← ih]
      simp [nondecreasing]

/-- Counterexample to claim C3 as stated: on the happy-path environment the
trace of the deduplication demo does not follow the claimed phase order
(config, generator, broker admin, pipeline SDK, database row count, prints) -
the broker admin and pipeline SDK calls happen before the generator call. -/
theorem c3_counterexample :
    ¬ List.Chain' (· ≤ ·) (((demo_dedup_main env0).1).filterMap claimRank) := by
  rw [← nondecreasing_iff]
  decide

/-- The ranked steps of the topic-creation loop are all broker-admin ranks. -/
theorem topics_filterMap (n : Nat) :
    (topics_trace n).filterMap actualRank = List.replicate n 4 := by
  induction n with
  | zero => rfl
  | succ n ih => simp [topics_trace, actualRank, ih, List.replicate_succ]

/-- A nondecreasing rank list stays nondecreasing after appending the
broker-admin block and the create/generator/verdict tail. -/
theorem chain_rep_tail (n : Nat) :
    ∀ pre : List Nat, List.Chain' (· ≤ ·) (pre ++ [4]) →
      List.Chain' (· ≤ ·) (pre ++ (List.replicate n 4 ++ [5, 6, 7])) := by
  induction n with
  | zero =>
    intro pre h
    obtain ⟨h1, _, h3⟩ := List.chain'_append.mp h
    simp only [List.replicate_zero, List.nil_append]
    refine List.chain'_append.mpr ⟨h1, (nondecreasing_iff [5, 6, 7]).mp (by decide), ?_⟩
    intro x hx y hy
    simp only [List.head?_cons, Option.mem_def, Option.some.injEq] at hy
    have hx4 : x ≤ 4 := h3 x hx 4 rfl
    omega
  | succ n ih =>
    intro pre h
    have h4 : List.Chain' (· ≤ ·) ((pre ++ [4]) ++ [4]) := by
      refine List.chain'_append.mpr ⟨h, (nondecreasing_iff [4]).mp (by decide), ?_⟩
      intro x hx y hy
      rw [List.getLast?_concat] at hx
      simp only [Option.mem_def, Option.some.injEq] at hx hy
      simp only [List.head?_cons, Option.some.injEq] at hy
      omega
    have := ih (pre ++ [4]) h4
    simpa [List.replicate_succ, List.append_assoc] using this

/-- Assembly step for rank chains of the create branch: a nondecreasing
prefix 0, 1, deletion ranks, table ranks (all at most 4) followed by the
broker block and the create/generator/verdict tail is nondecreasing. -/
theorem chain_create_shape (nt : Nat) (dtr tr : List Nat)
    (hpre : List.Chain' (· ≤ ·) (([0, 1] ++ (dtr ++ tr)) ++ [4])) :
    List.Chain' (· ≤ ·)
      ((0 : Nat) :: (([1] ++ (dtr ++ (tr ++ (List.replicate nt 4 ++ [5])))) ++ [6, 7])) := by
  have hmain := chain_rep_tail nt ([0, 1] ++ (dtr ++ tr)) hpre
  simpa [List.append_assoc] using hmain

/-- On every normally completing run, the ranked steps of
`create_pipeline_if_not_exists`, bracketed by the config-load rank 0 and the
generator and verdict ranks 6, 7, are nondecreasing: the pipeline check
precedes the deletion, which precedes the database DDL, the broker admin
calls and the pipeline create call, all of which precede the generator and
the final verdict. -/
theorem create_ranks_chain (env : DedupEnv)
    (h : (create_pipeline_if_not_exists env).2 = RunRes.normal) :
    List.Chain' (· ≤ ·)
      ((0 : Nat) :: (((create_pipeline_if_not_exists env).1).filterMap actualRank
        ++ [6, 7])) := by
  obtain ⟨ps, sc, cr, cl, te, nt, co, nB, nA, tg, rp, mdt, pid⟩ := env
  cases ps with
  | notFound =>
    cases co with
    | err m =>
      simp [create_pipeline_if_not_exists, check_if_pipeline_exists, deletionStage,
      pidTruthy, bne, existsBranchTrace, create_table_trace, createCallTrace,
      topics_filterMap, List.filterMap_append, actualRank, List.append_assoc] at h
    | ok =>
      cases te with
      | true =>
        simpa [create_pipeline_if_not_exists, check_if_pipeline_exists, deletionStage,
      pidTruthy, bne, existsBranchTrace, create_table_trace, createCallTrace,
      topics_filterMap, List.filterMap_append, actualRank, List.append_assoc] using
          chain_create_shape nt [] [3] ((nondecreasing_iff _).mp (by decide))
      | false =>
        simpa [create_pipeline_if_not_exists, check_if_pipeline_exists, deletionStage,
      pidTruthy, bne, existsBranchTrace, create_table_trace, createCallTrace,
      topics_filterMap, List.filterMap_append, actualRank, List.append_assoc] using
          chain_create_shape nt [] [3, 3] ((nondecreasing_iff _).mp (by decide))
    | alreadyExists =>
      cases te with
      | true =>
        simpa [create_pipeline_if_not_exists, check_if_pipeline_exists, deletionStage,
      pidTruthy, bne, existsBranchTrace, create_table_trace, createCallTrace,
      topics_filterMap, List.filterMap_append, actualRank, List.append_assoc] using
          chain_create_shape nt [] [3] ((nondecreasing_iff _).mp (by decide))
      | false =>
        simpa [create_pipeline_if_not_exists, check_if_pipeline_exists, deletionStage,
      pidTruthy, bne, existsBranchTrace, create_table_trace, createCallTrace,
      topics_filterMap, List.filterMap_append, actualRank, List.append_assoc] using
          chain_create_shape nt [] [3, 3] ((nondecreasing_iff _).mp (by decide))
  | connError =>
    simp [create_pipeline_if_not_exists, check_if_pipeline_exists, deletionStage,
      pidTruthy, bne, existsBranchTrace, create_table_trace, createCallTrace,
      topics_filterMap, List.filterMap_append, actualRank, List.append_assoc] at h
  | otherError m =>
    simp [create_pipeline_if_not_exists, check_if_pipeline_exists, deletionStage,
      pidTruthy, bne, existsBranchTrace, create_table_trace, createCallTrace,
      topics_filterMap, List.filterMap_append, actualRank, List.append_assoc] at h
  | running p =>
    cases hb : p == pid with
    | true =>
      cases cl with
      | true =>
        simp [create_pipeline_if_not_exists, check_if_pipeline_exists, deletionStage,
      pidTruthy, bne, existsBranchTrace, create_table_trace, createCallTrace,
      topics_filterMap, List.filterMap_append, actualRank, List.append_assoc, hb]
      | false =>
        simp [create_pipeline_if_not_exists, check_if_pipeline_exists, deletionStage,
      pidTruthy, bne, existsBranchTrace, create_table_trace, createCallTrace,
      topics_filterMap, List.filterMap_append, actualRank, List.append_assoc, hb]
    | false =>
      cases hpe : p == "" with
      | true =>
        cases co with
        | err m =>
          simp [create_pipeline_if_not_exists, check_if_pipeline_exists, deletionStage,
      pidTruthy, bne, existsBranchTrace, create_table_trace, createCallTrace,
      topics_filterMap, List.filterMap_append, actualRank, List.append_assoc, hb, hpe] at h
        | ok =>
          cases te with
          | true =>
            simpa [create_pipeline_if_not_exists, check_if_pipeline_exists, deletionStage,
      pidTruthy, bne, existsBranchTrace, create_table_trace, createCallTrace,
      topics_filterMap, List.filterMap_append, actualRank, List.append_assoc, hb, hpe] using
              chain_create_shape nt [] [3] ((nondecreasing_iff _).mp (by decide))
          | false =>
            simpa [create_pipeline_if_not_exists, check_if_pipeline_exists, deletionStage,
      pidTruthy, bne, existsBranchTrace, create_table_trace, createCallTrace,
      topics_filterMap, List.filterMap_append, actualRank, List.append_assoc, hb, hpe] using
              chain_create_shape nt [] [3, 3] ((nondecreasing_iff _).mp (by decide))
        | alreadyExists =>
          cases te with
          | true =>
            simpa [create_pipeline_if_not_exists, check_if_pipeline_exists, deletionStage,
      pidTruthy, bne, existsBranchTrace, create_table_trace, createCallTrace,
      topics_filterMap, List.filterMap_append, actualRank, List.append_assoc, hb, hpe] using
              chain_create_shape nt [] [3] ((nondecreasing_iff _).mp (by decide))
          | false =>
            simpa [create_pipeline_if_not_exists, check_if_pipeline_exists, deletionStage,
      pidTruthy, bne, existsBranchTrace, create_table_trace, createCallTrace,
      topics_filterMap, List.filterMap_append, actualRank, List.append_assoc, hb, hpe] using
              chain_create_shape nt [] [3, 3] ((nondecreasing_iff _).mp (by decide))
      | false =>
        cases sc with
        | true =>
          cases co with
          | err m =>
            simp [create_pipeline_if_not_exists, check_if_pipeline_exists, deletionStage,
      pidTruthy, bne, existsBranchTrace, create_table_trace, createCallTrace,
      topics_filterMap, List.filterMap_append, actualRank, List.append_assoc, hb, hpe] at h
          | ok =>
            cases te with
            | true =>
              simpa [create_pipeline_if_not_exists, check_if_pipeline_exists, deletionStage,
      pidTruthy, bne, existsBranchTrace, create_table_trace, createCallTrace,
      topics_filterMap, List.filterMap_append, actualRank, List.append_assoc, hb, hpe] using
                chain_create_shape nt [2] [3] ((nondecreasing_iff _).mp (by decide))
            | false =>
              simpa [create_pipeline_if_not_exists, check_if_pipeline_exists, deletionStage,
      pidTruthy, bne, existsBranchTrace, create_table_trace, createCallTrace,
      topics_filterMap, List.filterMap_append, actualRank, List.append_assoc, hb, hpe] using
                chain_create_shape nt [2] [3, 3] ((nondecreasing_iff _).mp (by decide))
          | alreadyExists =>
            cases te with
            | true =>
              simpa [create_pipeline_if_not_exists, check_if_pipeline_exists, deletionStage,
      pidTruthy, bne, existsBranchTrace, create_table_trace, createCallTrace,
      topics_filterMap, List.filterMap_append, actualRank, List.append_assoc, hb, hpe] using
                chain_create_shape nt [2] [3] ((nondecreasing_iff _).mp (by decide))
            | false =>
              simpa [create_pipeline_if_not_exists, check_if_pipeline_exists, deletionStage,
      pidTruthy, bne, existsBranchTrace, create_table_trace, createCallTrace,
      topics_filterMap, List.filterMap_append, actualRank, List.append_assoc, hb, hpe] using
                chain_create_shape nt [2] [3, 3] ((nondecreasing_iff _).mp (by decide))
        | false =>
          cases cr with
          | true =>
            cases co with
            | err m =>
              simp [create_pipeline_if_not_exists, check_if_pipeline_exists, deletionStage,
      pidTruthy, bne, existsBranchTrace, create_table_trace, createCallTrace,
      topics_filterMap, List.filterMap_append, actualRank, List.append_assoc, hb, hpe] at h
            | ok =>
              cases te with
              | true =>
                simpa [create_pipeline_if_not_exists, check_if_pipeline_exists, deletionStage,
      pidTruthy, bne, existsBranchTrace, create_table_trace, createCallTrace,
      topics_filterMap, List.filterMap_append, actualRank, List.append_assoc, hb, hpe] using
                  chain_create_shape nt [2] [3] ((nondecreasing_iff _).mp (by decide))
              | false =>
                simpa [create_pipeline_if_not_exists, check_if_pipeline_exists, deletionStage,
      pidTruthy, bne, existsBranchTrace, create_table_trace, createCallTrace,
      topics_filterMap, List.filterMap_append, actualRank, List.append_assoc, hb, hpe] using
                  chain_create_shape nt [2] [3, 3] ((nondecreasing_iff _).mp (by decide))
            | alreadyExists =>
              cases te with
              | true =>
                simpa [create_pipeline_if_not_exists, check_if_pipeline_exists, deletionStage,
      pidTruthy, bne, existsBranchTrace, create_table_trace, createCallTrace,
      topics_filterMap, List.filterMap_append, actualRank, List.append_assoc, hb, hpe] using
                  chain_create_shape nt [2] [3] ((nondecreasing_iff _).mp (by decide))
              | false =>
                simpa [create_pipeline_if_not_exists, check_if_pipeline_exists, deletionStage,
      pidTruthy, bne, existsBranchTrace, create_table_trace, createCallTrace,
      topics_filterMap, List.filterMap_append, actualRank, List.append_assoc, hb, hpe] using
                  chain_create_shape nt [2] [3, 3] ((nondecreasing_iff _).mp (by decide))
          | false =>
            simp [create_pipeline_if_not_exists, check_if_pipeline_exists, deletionStage,
      pidTruthy, bne, existsBranchTrace, create_table_trace, createCallTrace,
      topics_filterMap, List.filterMap_append, actualRank, List.append_assoc, hb, hpe] at h

/-- A normally completing demo run has a normally completing pipeline
stage. -/
theorem main_normal_create (env : DedupEnv)
    (h : (demo_dedup_main env).2 = RunRes.normal) :
    (create_pipeline_if_not_exists env).2 = RunRes.normal := by
  unfold demo_dedup_main at h
  rcases hc : create_pipeline_if_not_exists env with ⟨t, r⟩
  rw [hc] at h
  cases r with
  | exited n => simp at h
  | raised m => simp at h
  | normal => rfl

/-- The only ranked step of the post-generation tail is the verdict. -/
theorem postGen_filterMap (env : DedupEnv) (tw : Nat) :
    (postGenTrace env tw).filterMap actualRank = [7] := by
  cases hrp : env.rowPresent <;>
    simp [postGenTrace, hrp, actualRank, List.filterMap_append]

/-- Claim C3, amended: a normally completing demo run reads the config
first; the ranked phases then follow the order pipeline check, pipeline
delete, database DDL, broker admin, pipeline create, generator run, final
verdict (nondecreasing phase ranks) - in particular the generator SDK call
comes after, not before, the broker admin and pipeline SDK calls - and the
generator runs exactly once.  Moreover the trace decomposes explicitly: the
pipeline stage (which contains no row-count read) is followed by the first
row-count read, then the generator run, then two status prints, the sleep of
max_delay_time + 2 seconds, the second row-count read, the row read, the
remaining prints and, last of all, the verdict print. -/
theorem c3_amended (env : DedupEnv)
    (h : (demo_dedup_main env).2 = RunRes.normal) :
    ((demo_dedup_main env).1).head? = some Step.loadConfig
    ∧ List.Chain' (· ≤ ·) (((demo_dedup_main env).1).filterMap actualRank)
    ∧ ((demo_dedup_main env).1).countP isGenerator = 1
    ∧ ∃ tw, time_window_to_seconds env.maxDelayTime = Except.ok tw
        ∧ (demo_dedup_main env).1
            = Step.loadConfig :: (create_pipeline_if_not_exists env).1
                ++ [Step.dbReadCount, Step.generatorRun]
                ++ ([Step.print, Step.print, Step.sleep (tw + 2),
                      Step.dbReadCount, Step.dbReadRow]
                    ++ (if env.rowPresent then [Step.print] else [])
                    ++ [Step.print,
                        Step.verdict (env.nAfter - env.nBefore == env.totalGenerated)])
        ∧ ((create_pipeline_if_not_exists env).1).countP isDbReadCount = 0
        ∧ ((demo_dedup_main env).1).getLast?
            = some (Step.verdict (env.nAfter - env.nBefore == env.totalGenerated)) := by
  obtain ⟨tw, htw, hts⟩ := main_normal_decomp env h
  refine ⟨?_, ?_, ?_, tw, htw, ?_, create_countP_dbRead env, ?_⟩
  · rw [hts]
    rfl
  · rw [hts]
    have hcr := create_ranks_chain env (main_normal_create env h)
    have hfm : (Step.loadConfig :: (create_pipeline_if_not_exists env).1
        ++ [Step.dbReadCount, Step.generatorRun] ++ postGenTrace env tw).filterMap
          actualRank
        = 0 :: (((create_pipeline_if_not_exists env).1).filterMap actualRank
            ++ [6, 7]) := by
      simp [List.filterMap_append, actualRank, postGen_filterMap env tw,
        List.append_assoc]
    rw [hfm]
    exact hcr
  · rw [hts]
    simp [List.countP_append, List.countP_cons, create_countP_gen env,
      postGen_countP_gen env tw, isGenerator]
  · exact hts
  · rw [hts]
    have h2 : postGenTrace env tw ≠ [] := by simp [postGenTrace]
    rw [show Step.loadConfig :: (create_pipeline_if_not_exists env).1
          ++ [Step.dbReadCount, Step.generatorRun] ++ postGenTrace env tw
        = (Step.loadConfig :: ((create_pipeline_if_not_exists env).1
          ++ [Step.dbReadCount, Step.generatorRun])) ++ postGenTrace env tw by simp]
    rw [List.getLast?_append_of_ne_nil _ h2]
    exact postGen_getLast env tw

/-- Witness for C3 (amended) at the concrete environment `env0`. -/
theorem c3_witness :
    ((demo_dedup_main env0).1).head? = some Step.loadConfig
    ∧ List.Chain' (· ≤ ·) (((demo_dedup_main env0).1).filterMap actualRank)
    ∧ ((demo_dedup_main env0).1).countP isGenerator = 1
    ∧ ∃ tw, time_window_to_seconds env0.maxDelayTime = Except.ok tw
        ∧ (demo_dedup_main env0).1
            = Step.loadConfig :: (create_pipeline_if_not_exists env0).1
                ++ [Step.dbReadCount, Step.generatorRun]
                ++ ([Step.print, Step.print, Step.sleep (tw + 2),
                      Step.dbReadCount, Step.dbReadRow]
                    ++ (if env0.rowPresent then [Step.print] else [])
                    ++ [Step.print,
                        Step.verdict (env0.nAfter - env0.nBefore == env0.totalGenerated)])
        ∧ ((create_pipeline_if_not_exists env0).1).countP isDbReadCount = 0
        ∧ ((demo_dedup_main env0).1).getLast?
            = some (Step.verdict (env0.nAfter - env0.nBefore == env0.totalGenerated)) :=
  c3_amended env0 (by decide)

/-- Counterexample to claim C5 as stated: on the happy-path environment the
deduplication demo does not repeatedly check the sink after publishing - the
steps from the generator run onwards contain only one row-count read, so
there is no poll loop. -/
theorem c5_counterexample :
    ¬ (2 ≤ (((demo_dedup_main env0).1).dropWhile
        (fun s => !isGenerator s)).countP isDbReadCount) := by
  decide

/-- Claim C5, amended: after publishing events and before the final
row-count read, a normally completing demo run waits with a single
unconditional sleep of `time_window_to_seconds(max_delay_time) + 2` seconds,
immediately followed by exactly one row-count read; no further sleeps or
row-count reads follow, so there is no poll loop. -/
theorem c5_amended (env : DedupEnv)
    (h : (demo_dedup_main env).2 = RunRes.normal) :
    ∃ tw pre, time_window_to_seconds env.maxDelayTime = Except.ok tw
      ∧ (demo_dedup_main env).1
          = Step.loadConfig :: pre ++ [Step.dbReadCount, Step.generatorRun]
              ++ postGenTrace env tw
      ∧ (postGenTrace env tw).countP isSleep = 1
      ∧ (postGenTrace env tw).countP isDbReadCount = 1
      ∧ (∃ rest, postGenTrace env tw
            = [Step.print, Step.print, Step.sleep (tw + 2), Step.dbReadCount] ++ rest
          ∧ rest.countP isSleep = 0 ∧ rest.countP isDbReadCount = 0) := by
  obtain ⟨tw, htw, hts⟩ := main_normal_decomp env h
  refine ⟨tw, (create_pipeline_if_not_exists env).1, htw, hts,
    postGen_countP_sleep env tw, postGen_countP_dbRead env tw, ?_⟩
  refine ⟨[Step.dbReadRow] ++ (if env.rowPresent then [Step.print] else [])
      ++ [Step.print, Step.verdict (env.nAfter - env.nBefore == env.totalGenerated)],
    ?_, ?_, ?_⟩
  · simp [postGenTrace]
  · cases hrp : env.rowPresent <;>
      simp [hrp, List.countP_append, List.countP_cons, isSleep]
  · cases hrp : env.rowPresent <;>
      simp [hrp, List.countP_append, List.countP_cons, isDbReadCount]

/-- Witness for C5 (amended) at the concrete environment `env0`. -/
theorem c5_witness :
    ∃ tw pre, time_window_to_seconds env0.maxDelayTime = Except.ok tw
      ∧ (demo_dedup_main env0).1
          = Step.loadConfig :: pre ++ [Step.dbReadCount, Step.generatorRun]
              ++ postGenTrace env0 tw
      ∧ (postGenTrace env0 tw).countP isSleep = 1
      ∧ (postGenTrace env0 tw).countP isDbReadCount = 1
      ∧ (∃ rest, postGenTrace env0 tw
            = [Step.print, Step.print, Step.sleep (tw + 2), Step.dbReadCount] ++ rest
          ∧ rest.countP isSleep = 0 ∧ rest.countP isDbReadCount = 0) :=
  c5_amended env0 (by decide)
